import Mathlib

/-!
Verification development for the dynamic dependency-graph task scheduler and
self-healing recovery orchestrator of `ai-ops-studio`
(`src/services/self-evolution-engine/evolution-agent.ts`, classes
`DynamicTaskGraph` and `SelfHealingOrchestrator`).

The TypeScript source is shallowly embedded: the pure queries
(`getReadyTasks`, `calculateBayesianPriority`) become Lean functions; the
`executeAsync` driver loop becomes a deterministic small-step interpreter
over an explicit scheduler state, parameterised by an environment schedule
that decides which in-flight promise settles when `Promise.race` has to
block; the recovery chain (`autoRecover`, the registered strategies) becomes
functions over abstract strategy outcomes.  JavaScript promises are modelled
as entries carrying a pending/settled status; `Map` objects as lists of keys
in insertion order; thrown exceptions as `Except` / explicit outcome tags.
-/

namespace AiOpsStudio

/-- `interface TaskNode` of the embedded `DynamicTaskGraph` code:
`{ id, agent, dependencies, priority, estimatedDuration }`. -/
structure TaskNode where
  id : String
  agent : String
  dependencies : List String
  priority : Int
  estimatedDuration : Int
deriving DecidableEq, Repr

/-- Stable insertion of a node into a list sorted by descending `priority`:
the node is placed before the first element not strictly greater, which is
how a stable sort (JS `Array.prototype.sort` with comparator
`(a, b) => b.priority - a.priority`) orders elements of equal priority. -/
def insertByPriority (n : TaskNode) : List TaskNode → List TaskNode
  | [] => [n]
  | m :: ms => if m.priority > n.priority then m :: insertByPriority n ms else n :: m :: ms

/-- Stable sort by descending `priority` (models the JS
`.sort((a, b) => b.priority - a.priority)`, which is stable). -/
def sortByPriorityDesc : List TaskNode → List TaskNode
  | [] => []
  | n :: ns => insertByPriority n (sortByPriorityDesc ns)

/-- `DynamicTaskGraph.getReadyTasks`:
`Array.from(this.nodes.values()).filter(node =>
  node.dependencies.every(dep => this.executionPool.has(dep)))
 .sort((a, b) => b.priority - a.priority)`.
`nodes` is the node map in insertion order and `pool` is the key set of
`this.executionPool` — a dependency is in the pool from the moment it is
*dispatched* (the promise is stored at launch), not when it completes. -/
def getReadyTasks (nodes : List TaskNode) (pool : List String) : List TaskNode :=
  sortByPriorityDesc (nodes.filter (fun n => n.dependencies.all (fun d => pool.contains d)))

/-- Status of one promise created by `executeTask`: still running, or settled
(the underlying agent call finished). -/
inductive PStatus where
  | pending
  | settled
deriving DecidableEq, Repr

/-- One entry of the `executing` array of `executeAsync`: the promise of a
dispatched task instance. -/
structure PEntry where
  taskId : String
  status : PStatus
deriving DecidableEq, Repr

/-- State of one `executeAsync` run, observed at the top of the outer
`while (ready.length > 0 || executing.length > 0)` loop.

`nodes`/`ready`/`executing`/`pool` are the fields and locals of the source;
the remaining fields are observation logs: `removedPending` records promises
that `executing.splice(index, 1)` removed while they were still pending
(their tasks keep running, unobserved), `settledLog` records which task
instances have actually finished, `dispatched` records every dispatch in
order (one entry per `executeTask` call). -/
structure SchedState where
  nodes : List TaskNode
  ready : List TaskNode
  executing : List PEntry
  pool : List String
  removedPending : List String
  settledLog : List String
  dispatched : List String
deriving DecidableEq, Repr

/-- The inner launch loop of `executeAsync`:
`while (ready.length > 0 && executing.length < this.maxConcurrency) {
   const task = ready.shift()!;
   const promise = this.executeTask(task);
   executing.push(promise);
   this.executionPool.set(task.id, promise); }`
Returns the remaining ready queue and the updated executing array, pool key
list and dispatch log. -/
def launchMany (maxConcurrency : Nat) :
    List TaskNode → List PEntry → List String → List String →
    List TaskNode × List PEntry × List String × List String
  | [], ex, pool, disp => ([], ex, pool, disp)
  | t :: ts, ex, pool, disp =>
    if ex.length < maxConcurrency then
      launchMany maxConcurrency ts (ex ++ [⟨t.id, PStatus.pending⟩])
        (if pool.contains t.id then pool else pool ++ [t.id]) (disp ++ [t.id])
    else (t :: ts, ex, pool, disp)

/-- Environment action at a blocking `Promise.race`: when no promise in
`executing` is settled yet, the schedule names an index whose promise
finishes first.  Returns the updated array and the ids newly settled. -/
def settleIdxAt (j : Nat) (ex : List PEntry) : List PEntry × List String :=
  match ex.get? j with
  | some e =>
    if e.status == PStatus.pending then (ex.set j ⟨e.taskId, PStatus.settled⟩, [e.taskId])
    else (ex, [])
  | none => (ex, [])

/-- The outer loop guard of `executeAsync`:
the run is over when `ready` and `executing` are both empty. -/
def finishedB (s : SchedState) : Bool :=
  s.ready.isEmpty && s.executing.isEmpty

/-- One iteration of the outer loop of `executeAsync`, under environment
schedule `sched` (consulted at step index `k` when the race has to block):

1. the inner launch loop dispatches ready tasks up to `maxConcurrency`;
2. `const completed = await Promise.race(executing)` — if some promise in
   `executing` is already settled the race resolves immediately with its
   value; otherwise the environment lets the promise at index `sched k`
   finish first (other in-flight tasks simply have not finished yet);
3. `const index = executing.indexOf(completed); executing.splice(index, 1)` —
   `completed` is the task's *resolved value*, so `indexOf` over an array of
   promises yields `-1` and `splice(-1, 1)` removes the **last** element,
   whether or not it has settled;
4. `ready.push(...this.getReadyTasks())` refills the ready queue.

When the guard `finishedB` holds the loop has exited and the state is
unchanged. -/
def stepSched (maxConcurrency : Nat) (sched : Nat → Nat) (k : Nat) (s : SchedState) :
    SchedState :=
  if finishedB s then s
  else
    match launchMany maxConcurrency s.ready s.executing s.pool s.dispatched with
    | (r1, ex1, pool1, disp1) =>
      match
        (if ex1.any (fun e => e.status == PStatus.settled) then (ex1, ([] : List String))
         else settleIdxAt (sched k) ex1) with
      | (exR, newSettled) =>
        { nodes := s.nodes
          ready := r1 ++ getReadyTasks s.nodes pool1
          executing := exR.dropLast
          pool := pool1
          removedPending :=
            match exR.getLast? with
            | some e =>
              if e.status == PStatus.pending then s.removedPending ++ [e.taskId]
              else s.removedPending
            | none => s.removedPending
          settledLog := s.settledLog ++ newSettled
          dispatched := disp1 }

/-- Initial state of `executeAsync(workflow)`: the node map is filled from
the workflow, `const ready = this.getReadyTasks()` with an empty execution
pool, and `executing` starts empty. -/
def initSched (workflow : List TaskNode) : SchedState :=
  { nodes := workflow
    ready := getReadyTasks workflow []
    executing := []
    pool := []
    removedPending := []
    settledLog := []
    dispatched := [] }

/-- `n` iterations of the outer loop of `executeAsync`. -/
def runSched (maxConcurrency : Nat) (sched : Nat → Nat) (s : SchedState) : Nat → SchedState
  | 0 => s
  | n + 1 => stepSched maxConcurrency sched n (runSched maxConcurrency sched s n)

/-- Number of task instances that have been dispatched but have not
finished: pending promises still tracked in `executing`, plus promises that
were spliced out of `executing` while pending (their tasks run on,
unobserved, and in this execution never finish within the trace). -/
def runningCount (s : SchedState) : Nat :=
  (s.executing.filter (fun e => e.status == PStatus.pending)).length +
    s.removedPending.length

/-- Observable outcome of invoking one recovery strategy
(`this.recoveryStrategies.get(strategy.name)?.(workflow, context, error)`):
it returns a truthy recovered value, returns a falsy value (including the
`undefined` of an unregistered name under `?.`), or throws. -/
inductive StratOutcome where
  | success (v : Nat)
  | failure
  | threw
deriving DecidableEq, Repr

/-- Whether a strategy invocation produced a truthy recovered value
(the `if (recovered)` test in `autoRecover`). -/
def isSucc : StratOutcome → Bool
  | StratOutcome.success _ => true
  | _ => false

/-- The four strategy names, in the order of the `strategies` array literal
of `SelfHealingOrchestrator.autoRecover`. -/
def strategyNames : List String :=
  ["exponential_backoff_retry", "checkpoint_rollback",
   "alternate_path_routing", "graceful_degradation"]

/-- The `for (const strategy of strategies)` loop body of `autoRecover`,
over an arbitrary `strategies` array of `{name, weight}` records and a
registry `reg` giving each named strategy's behaviour on this call:
try the strategy; on a truthy result return it (after `updateModel`, a side
effect not modelled); on a falsy result or a thrown error log and continue;
after the loop return `null`.  The result pairs the recovered value (`none`
models the final `return null`) with the list of strategy names attempted,
in order.  The `weight` component is destructured but never read — exactly
as in the source, where only `strategy.name` is used. -/
def autoRecoverWith (strategies : List (String × ℚ)) (reg : String → StratOutcome) :
    Option Nat × List String :=
  match strategies with
  | [] => (none, [])
  | (name, _w) :: rest =>
    match reg name with
    | StratOutcome.success v => (some v, [name])
    | _ =>
      match autoRecoverWith rest reg with
      | (r, att) => (r, name :: att)

/-- `SelfHealingOrchestrator.autoRecover`, with its literal `strategies`
array `[{name: 'exponential_backoff_retry', weight: 0.4}, {name:
'checkpoint_rollback', weight: 0.3}, {name: 'alternate_path_routing',
weight: 0.2}, {name: 'graceful_degradation', weight: 0.1}]`. -/
def autoRecover (reg : String → StratOutcome) : Option Nat × List String :=
  autoRecoverWith
    [("exponential_backoff_retry", 4/10), ("checkpoint_rollback", 3/10),
     ("alternate_path_routing", 2/10), ("graceful_degradation", 1/10)] reg

/-- The `for (let i = 0; i < maxRetries; i++)` loop of the registered
`exponential_backoff_retry` strategy, with `remaining` iterations left and
current index `i`:
`await this.sleep(Math.pow(2, i) * 1000);
 try { return await this.executeWorkflow(workflow); }
 catch (e) { if (i === maxRetries - 1) throw e; }`.
`attempt i` is the outcome of the `i`-th `executeWorkflow` call (`some v`
success, `none` throws).  Returns the list of sleep durations performed, in
order, and the strategy outcome (`threw` when the last attempt's error is
rethrown; the `remaining = 0` base case is the unreachable normal loop
exit, which in JS returns `undefined`, a falsy non-recovery). -/
def retryAux (attempt : Nat → Option Nat) : Nat → Nat → List Nat × StratOutcome
  | 0, _i => ([], StratOutcome.failure)
  | remaining + 1, i =>
    match attempt i with
    | some v => ([2 ^ i * 1000], StratOutcome.success v)
    | none =>
      if remaining = 0 then ([2 ^ i * 1000], StratOutcome.threw)
      else
        match retryAux attempt remaining (i + 1) with
        | (ds, o) => (2 ^ i * 1000 :: ds, o)

/-- The `exponential_backoff_retry` strategy: `const maxRetries = 5` and the
loop starts at `i = 0`. -/
def exponentialBackoffRetry (attempt : Nat → Option Nat) : List Nat × StratOutcome :=
  retryAux attempt 5 0

/-- `recommendedAction` field of `interface FailurePrediction`:
`'retry' | 'rollback' | 'reroute' | 'escalate'`. -/
inductive RecommendedAction where
  | retry
  | rollback
  | reroute
  | escalate
deriving DecidableEq, Repr

/-- `interface FailurePrediction { probability; expectedFailurePoint;
recommendedAction }`. -/
structure FailurePrediction where
  probability : ℚ
  expectedFailurePoint : String
  recommendedAction : RecommendedAction
deriving DecidableEq, Repr

/-- Observable outcome of one `executeWithSelfHealing` call: the value
returned or error thrown to the caller, whether the `probability > 0.7`
branch applied preventive measures, and which recovery strategies the catch
handler attempted. -/
structure SHOutcome where
  result : Except String Nat
  preventiveApplied : Bool
  recoveryAttempted : List String
deriving Repr

/-- `SelfHealingOrchestrator.executeWithSelfHealing`.  The two awaited
external calls inside the `try` block are inputs: `predictRes` is the
behaviour of `await this.predictFailures(executionContext)` (an `Except`,
since `predictFailures` throws when the failure-predictor model is
unavailable), and `execRes` the behaviour of
`await this.executeWithMonitoring(workflow, executionContext)`.
Control flow of the source:
`try { const prediction = await this.predictFailures(...);
       if (prediction.probability > 0.7) await this.applyPreventiveMeasures(...);
       const result = await this.executeWithMonitoring(...);
       await this.updateModel(...); return result; }
 catch (error) { const recovered = await this.autoRecover(error, ...);
                 if (!recovered) throw error; return recovered; }`
A throw from `predictFailures` therefore jumps straight to the same catch
handler as an execution failure, skipping the execution call. -/
def executeWithSelfHealing (predictRes : Except String FailurePrediction)
    (execRes : Except String Nat) (reg : String → StratOutcome) : SHOutcome :=
  match predictRes with
  | Except.error e =>
    match autoRecover reg with
    | (some v, att) => ⟨Except.ok v, false, att⟩
    | (none, att) => ⟨Except.error e, false, att⟩
  | Except.ok p =>
    match execRes with
    | Except.ok v => ⟨Except.ok v, decide (p.probability > 7/10), []⟩
    | Except.error e =>
      match autoRecover reg with
      | (some v, att) => ⟨Except.ok v, decide (p.probability > 7/10), att⟩
      | (none, att) => ⟨Except.error e, decide (p.probability > 7/10), att⟩

/-- `DynamicTaskGraph.calculateBayesianPriority`:
`const historicalSuccess = this.getHistoricalSuccessRate(task.agent);
 const urgency = task.priority / 100;
 const resourceAvailability = this.getResourceAvailability();
 return (historicalSuccess * 0.4) + (urgency * 0.4) + (resourceAvailability * 0.2);`
The two getter calls are opaque inputs; numerals are modelled in ℚ.  Note
the source applies no clamping to the returned value. -/
def calculateBayesianPriority (historicalSuccess taskPriority resourceAvailability : ℚ) : ℚ :=
  (historicalSuccess * (4/10)) + ((taskPriority / 100) * (4/10)) +
    (resourceAvailability * (2/10))

/-! Concrete workflows used to evaluate the embedded code on the claims'
scenarios. -/

/-- A single task with no dependencies. -/
def nodeA : TaskNode := ⟨"a", "agentA", [], 1, 1⟩

/-- Scenario workflow for readiness: `c` depends on both `a` and `b`. -/
def nodeB : TaskNode := ⟨"b", "agentB", [], 2, 1⟩

/-- The dependent node of the readiness scenario. -/
def nodeC : TaskNode := ⟨"c", "agentC", ["a", "b"], 1, 1⟩

/-- Workflow `{a, b, c}` with `c` depending on `a` and `b`
(`a` has priority 3, `b` priority 2, `c` priority 1, so the stable
descending sort keeps declaration order). -/
def wfABC : List TaskNode := [⟨"a", "agentA", [], 3, 1⟩, nodeB, nodeC]

/-- A 3-node dependency cycle `a → b → c → a`
(`a` depends on `c`, `b` on `a`, `c` on `b`). -/
def wfCycle : List TaskNode :=
  [⟨"a", "agentA", ["c"], 3, 1⟩, ⟨"b", "agentB", ["a"], 2, 1⟩,
   ⟨"c", "agentC", ["b"], 1, 1⟩]

/-- Eighteen independent tasks (no dependencies), priorities descending so
the ready order is the declaration order. -/
def wf18 : List TaskNode :=
  [⟨"a", "agent", [], 18, 1⟩, ⟨"b", "agent", [], 17, 1⟩, ⟨"c", "agent", [], 16, 1⟩,
   ⟨"d", "agent", [], 15, 1⟩, ⟨"e", "agent", [], 14, 1⟩, ⟨"f", "agent", [], 13, 1⟩,
   ⟨"g", "agent", [], 12, 1⟩, ⟨"h", "agent", [], 11, 1⟩, ⟨"i", "agent", [], 10, 1⟩,
   ⟨"j", "agent", [], 9, 1⟩, ⟨"k", "agent", [], 8, 1⟩, ⟨"l", "agent", [], 7, 1⟩,
   ⟨"m", "agent", [], 6, 1⟩, ⟨"n", "agent", [], 5, 1⟩, ⟨"o", "agent", [], 4, 1⟩,
   ⟨"p", "agent", [], 3, 1⟩, ⟨"q", "agent", [], 2, 1⟩, ⟨"r", "agent", [], 1, 1⟩]

/-- The environment schedule used in the concrete traces: whenever
`Promise.race` has to block, the first (oldest) in-flight promise finishes
first; all other dispatched tasks are slow and keep running. -/
def schedFirst : Nat → Nat := fun _ => 0

/-! ## Helper lemmas -/

lemma mem_insertByPriority (x n : TaskNode) (l : List TaskNode) :
    x ∈ insertByPriority n l ↔ x = n ∨ x ∈ l := by
  induction l with
  | nil => simp [insertByPriority]
  | cons m ms ih =>
    by_cases hm : m.priority > n.priority
    · simp [insertByPriority, hm, ih]
      tauto
    · simp [insertByPriority, hm, ih]

lemma mem_sortByPriorityDesc (x : TaskNode) (l : List TaskNode) :
    x ∈ sortByPriorityDesc l ↔ x ∈ l := by
  induction l with
  | nil => simp [sortByPriorityDesc]
  | cons n ns ih => simp [sortByPriorityDesc, mem_insertByPriority, ih]

/-! ## Claims -/

/-- **C1** (code bug).  The claim states that a node appears in
`readyTasks()` iff every one of its dependencies is `Completed`, a merely
started dependency not sufficing.  The source's `getReadyTasks` instead
tests `this.executionPool.has(dep)`, which holds from the moment a
dependency is *dispatched*.  Evaluation at the failing input: in the
workflow `{a, b, c}` with `c` depending on `a` and `b`, under the schedule
where `a` finishes first and `b` is slow, `c` is returned as ready and
dispatched while `b` has never finished.  The first conjunct evaluates the
pure query (`c`'s dependencies are merely present in the pool); the others
evaluate the `executeAsync` run: after two loop iterations `c` has been
dispatched yet `b` never settled. -/
theorem getReadyTasks_admits_started_dependency :
    nodeC ∈ getReadyTasks wfABC ["a", "b"] ∧
    (runSched 16 schedFirst (initSched wfABC) 2).dispatched.contains "c" = true ∧
    (runSched 16 schedFirst (initSched wfABC) 2).settledLog.contains "b" = false := by
  decide

/-- **C2** (code bug).  The claim states that the number of simultaneously
running tasks never exceeds `maxConcurrency` (16).  Because
`executing.indexOf(completed)` compares a task's resolved *value* against an
array of promises it is always `-1`, and `splice(-1, 1)` removes the most
recently pushed promise — possibly one still running — instead of the
completed one.  On a workflow of 18 independent tasks where the first task
finishes first and the rest are slow, after three loop iterations 18 tasks
have been dispatched and only one has finished: 17 tasks are running at
once, exceeding the bound of 16. -/
theorem executeAsync_running_exceeds_maxConcurrency :
    16 < runningCount (runSched 16 schedFirst (initSched wf18) 3) := by
  decide

/-- **C10** (confirmed).  `getReadyTasks` never excludes a node for having
been dispatched or finished: membership depends only on the node being in
the graph and every dependency id being a key of the execution pool, so in
particular a node with an empty dependency list is returned on every call,
including after its own dispatch; consequently a single `executeAsync` run
dispatches the same task more than once — on the one-task workflow `[a]`
the dispatch log after two loop iterations is `["a", "a"]`. -/
theorem getReadyTasks_ignores_dispatch_status :
    (∀ (nodes : List TaskNode) (pool : List String) (n : TaskNode),
      n ∈ getReadyTasks nodes pool ↔
        n ∈ nodes ∧ n.dependencies.all (fun d => pool.contains d) = true) ∧
    (runSched 16 schedFirst (initSched [nodeA]) 2).dispatched = ["a", "a"] := by
  refine ⟨?_, by decide⟩
  intro nodes pool n
  simp [getReadyTasks, mem_sortByPriorityDesc, List.mem_filter]

lemma getReadyTasks_singleA (pool : List String) :
    getReadyTasks [nodeA] pool = [nodeA] := by
  simp [getReadyTasks, nodeA, sortByPriorityDesc, insertByPriority]

lemma stepSched_singleA (sched : Nat → Nat) (k : Nat) (s : SchedState)
    (h1 : s.nodes = [nodeA]) (h2 : s.ready = [nodeA]) (h3 : s.executing = []) :
    (stepSched 16 sched k s).nodes = [nodeA] ∧
    (stepSched 16 sched k s).ready = [nodeA] ∧
    (stepSched 16 sched k s).executing = [] := by
  obtain ⟨no, re, ex, po, rp, sl, di⟩ := s
  simp only at h1 h2 h3
  subst h1; subst h2; subst h3
  cases hk : sched k with
  | zero =>
    simp [stepSched, finishedB, launchMany, settleIdxAt, hk, getReadyTasks_singleA]
  | succ j =>
    simp [stepSched, finishedB, launchMany, settleIdxAt, hk, getReadyTasks_singleA]

lemma runSched_singleA_invariant (sched : Nat → Nat) (n : Nat) :
    (runSched 16 sched (initSched [nodeA]) n).nodes = [nodeA] ∧
    (runSched 16 sched (initSched [nodeA]) n).ready = [nodeA] ∧
    (runSched 16 sched (initSched [nodeA]) n).executing = [] := by
  induction n with
  | zero => exact ⟨rfl, by simp [runSched, initSched, getReadyTasks_singleA], rfl⟩
  | succ n ih => exact stepSched_singleA sched n _ ih.1 ih.2.1 ih.2.2

/-- **C3** (code bug).  The claim states that on every acyclic workflow with
no permanently failing task, `executeAsync` terminates with every node
`Completed`.  The source never removes a dispatched node from the graph and
has no completed state at all, so `getReadyTasks` keeps returning every
node whose dependencies are in the execution pool — in particular a
dependency-free node forever re-qualifies after its own dispatch.  On the
one-task acyclic workflow `[a]`, whose task always succeeds, the ready
queue is `[a]` again after every loop iteration under *every* environment
schedule: the outer `while` guard never becomes false, i.e. the run never
terminates. -/
theorem executeAsync_never_terminates_single_task (sched : Nat → Nat) (n : Nat) :
    finishedB (runSched 16 sched (initSched [nodeA]) n) = false := by
  have h := runSched_singleA_invariant sched n
  simp [finishedB, h.2.1]

lemma runSched_cycle_fixed (sched : Nat → Nat) (n : Nat) :
    runSched 16 sched (initSched wfCycle) n = initSched wfCycle := by
  induction n with
  | zero => rfl
  | succ n ih =>
    have hfin : finishedB (initSched wfCycle) = true := by decide
    simp [runSched, ih, stepSched, hfin]

/-- **C6** (corrected), counterexample.  The claim states that on the
3-node cycle `a → b → c → a` validation fails with `DependencyCycleError`
before any node leaves `Pending`.  The source contains no `validate()` and
no `DependencyCycleError` at all: on the cyclic workflow, `executeAsync`'s
initial ready computation is empty, the outer loop guard is false at once,
and the call returns normally — no error is raised and nothing is
dispatched. -/
theorem cycle_no_error_counterexample :
    finishedB (initSched wfCycle) = true ∧ (initSched wfCycle).ready = [] ∧
    (initSched wfCycle).dispatched = [] := by
  decide

/-- **C6** (corrected), amended claim: `executeAsync` performs no cycle
validation and raises no `DependencyCycleError`; on a workflow that is
entirely the cycle `a → b → c → a` the run loop exits immediately — the
state never changes under any environment schedule and any number of loop
iterations — so no node is ever dispatched (none reaches `Running`), but
the call returns normally instead of failing. -/
theorem cycle_run_returns_immediately (sched : Nat → Nat) (n : Nat) :
    runSched 16 sched (initSched wfCycle) n = initSched wfCycle ∧
    finishedB (initSched wfCycle) = true ∧
    (runSched 16 sched (initSched wfCycle) n).dispatched = [] := by
  refine ⟨runSched_cycle_fixed sched n, by decide, ?_⟩
  rw [runSched_cycle_fixed sched n]
  rfl

lemma autoRecoverWith_cons_success {reg : String → StratOutcome} {name : String}
    {w : ℚ} {rest : List (String × ℚ)} {v : Nat} (h : reg name = StratOutcome.success v) :
    autoRecoverWith ((name, w) :: rest) reg = (some v, [name]) := by
  simp [autoRecoverWith, h]

lemma autoRecoverWith_cons_nosucc {reg : String → StratOutcome} {name : String}
    {w : ℚ} {rest : List (String × ℚ)} (h : isSucc (reg name) = false) :
    autoRecoverWith ((name, w) :: rest) reg =
      ((autoRecoverWith rest reg).1, name :: (autoRecoverWith rest reg).2) := by
  rcases hp : autoRecoverWith rest reg with ⟨r, att⟩
  cases hr : reg name
  · rw [hr] at h; simp [isSucc] at h
  · simp [autoRecoverWith, hr, hp]
  · simp [autoRecoverWith, hr, hp]

lemma autoRecoverWith_weights_irrel (reg : String → StratOutcome) :
    ∀ (l r : List (String × ℚ)), l.map Prod.fst = r.map Prod.fst →
      autoRecoverWith l reg = autoRecoverWith r reg := by
  intro l
  induction l with
  | nil =>
    intro r h
    cases r with
    | nil => rfl
    | cons hd tl => simp at h
  | cons hd tl ih =>
    intro r h
    cases r with
    | nil => simp at h
    | cons hd2 tl2 =>
      obtain ⟨n1, w1⟩ := hd
      obtain ⟨n2, w2⟩ := hd2
      simp only [List.map_cons, List.cons.injEq] at h
      obtain ⟨hname, htl⟩ := h
      subst hname
      cases hr : reg n1
      · simp [autoRecoverWith, hr]
      · simp [autoRecoverWith, hr, ih tl2 htl]
      · simp [autoRecoverWith, hr, ih tl2 htl]

/-- **C4** (confirmed).  `autoRecover` attempts the strategies in exactly
the registration order `exponential_backoff_retry`, `checkpoint_rollback`,
`alternate_path_routing`, `graceful_degradation`.  The first conjunct shows
the weight metadata is irrelevant: replacing the literal weights by any
rationals leaves the behaviour unchanged (the loop never reads the weight).
The remaining conjuncts show, for each position, that when the strategy at
that position succeeds and the earlier ones do not, its outcome is returned
and the attempted-strategy log stops there — no later strategy is
invoked. -/
theorem autoRecover_fixed_order_first_success (w1 w2 w3 w4 : ℚ)
    (reg : String → StratOutcome) :
    autoRecoverWith [("exponential_backoff_retry", w1), ("checkpoint_rollback", w2),
        ("alternate_path_routing", w3), ("graceful_degradation", w4)] reg =
      autoRecover reg ∧
    (∀ v, reg "exponential_backoff_retry" = StratOutcome.success v →
      autoRecover reg = (some v, ["exponential_backoff_retry"])) ∧
    (∀ v, isSucc (reg "exponential_backoff_retry") = false →
      reg "checkpoint_rollback" = StratOutcome.success v →
      autoRecover reg = (some v, ["exponential_backoff_retry", "checkpoint_rollback"])) ∧
    (∀ v, isSucc (reg "exponential_backoff_retry") = false →
      isSucc (reg "checkpoint_rollback") = false →
      reg "alternate_path_routing" = StratOutcome.success v →
      autoRecover reg =
        (some v, ["exponential_backoff_retry", "checkpoint_rollback",
                  "alternate_path_routing"])) ∧
    (∀ v, isSucc (reg "exponential_backoff_retry") = false →
      isSucc (reg "checkpoint_rollback") = false →
      isSucc (reg "alternate_path_routing") = false →
      reg "graceful_degradation" = StratOutcome.success v →
      autoRecover reg = (some v, strategyNames)) := by
  refine ⟨autoRecoverWith_weights_irrel reg _ _ rfl, ?_, ?_, ?_, ?_⟩
  · intro v h
    rw [autoRecover, autoRecoverWith_cons_success h]
  · intro v h1 h2
    rw [autoRecover, autoRecoverWith_cons_nosucc h1, autoRecoverWith_cons_success h2]
  · intro v h1 h2 h3
    rw [autoRecover, autoRecoverWith_cons_nosucc h1, autoRecoverWith_cons_nosucc h2,
      autoRecoverWith_cons_success h3]
  · intro v h1 h2 h3 h4
    rw [autoRecover, autoRecoverWith_cons_nosucc h1, autoRecoverWith_cons_nosucc h2,
      autoRecoverWith_cons_nosucc h3, autoRecoverWith_cons_success h4]
    rfl

/-- Witness for C4: with a registry in which only `checkpoint_rollback`
produces a truthy recovery, `autoRecover` returns its value and attempts
exactly the first two strategies. -/
theorem autoRecover_fixed_order_first_success_witness :
    autoRecover (fun nm => if nm = "checkpoint_rollback" then StratOutcome.success 7
      else StratOutcome.failure) =
      (some 7, ["exponential_backoff_retry", "checkpoint_rollback"]) :=
  (autoRecover_fixed_order_first_success 0 0 0 0 _).2.2.1 7 (by decide) (by decide)

lemma retryAux_delays (attempt : Nat → Option Nat) :
    ∀ rem i, 1 ≤ rem →
      (retryAux attempt rem i).1 =
        (List.range (retryAux attempt rem i).1.length).map (fun j => 2 ^ (i + j) * 1000) ∧
      1 ≤ (retryAux attempt rem i).1.length ∧ (retryAux attempt rem i).1.length ≤ rem := by
  intro rem
  induction rem with
  | zero => intro i h; omega
  | succ rem ih =>
    intro i _
    have hr1 : List.range 1 = [0] := rfl
    cases ha : attempt i with
    | some v => simp [retryAux, ha, hr1]
    | none =>
      rcases Nat.eq_zero_or_pos rem with hrem | hrem
      · subst hrem
        simp [retryAux, ha, hr1]
      · have hne : rem ≠ 0 := Nat.pos_iff_ne_zero.mp hrem
        obtain ⟨ihd, ihl, ihu⟩ := ih (i + 1) hrem
        rcases hres : retryAux attempt rem (i + 1) with ⟨ds, o⟩
        rw [hres] at ihd ihl ihu
        simp only at ihd ihl ihu
        simp only [retryAux, ha, hne, if_false, hres]
        refine ⟨?_, by simp, by simpa using Nat.succ_le_succ ihu⟩
        have hfun : ((fun j => 2 ^ (i + j) * 1000) ∘ Nat.succ) =
            (fun j => 2 ^ (i + 1 + j) * 1000) := by
          funext j
          show 2 ^ (i + (j + 1)) * 1000 = 2 ^ (i + 1 + j) * 1000
          have hxy : i + (j + 1) = i + 1 + j := by omega
          rw [hxy]
        simp only [List.length_cons, List.range_succ_eq_map, List.map_cons, List.map_map,
          Nat.add_zero, List.cons.injEq, true_and, hfun]
        exact ihd

/-- **C5** (confirmed).  The `exponential_backoff_retry` strategy sleeps
`2^i * 1000` ms (i.e. `2^i` seconds, the source's time unit) before attempt
`i`: the first conjunct shows that for every behaviour of the retried task
the performed sleep list is exactly `[2^0·1000, …, 2^(k-1)·1000]` for its
own length `k` with `1 ≤ k ≤ 5`, so there are at most 5 attempts.  The
second conjunct evaluates the all-fail case: the five delays
`1000, 2000, 4000, 8000, 16000` are performed and the strategy rethrows
(gives up after the 5th attempt).  The third conjunct shows the orchestrator
then falls through: with `exponential_backoff_retry` producing exactly that
thrown outcome and `checkpoint_rollback` succeeding, `autoRecover` returns
the second strategy's value after attempting both, rather than propagating
the retry failure. -/
theorem backoff_schedule_gives_up_and_falls_through :
    (∀ attempt : Nat → Option Nat,
      (exponentialBackoffRetry attempt).1 =
        (List.range (exponentialBackoffRetry attempt).1.length).map
          (fun i => 2 ^ i * 1000) ∧
      1 ≤ (exponentialBackoffRetry attempt).1.length ∧
      (exponentialBackoffRetry attempt).1.length ≤ 5) ∧
    exponentialBackoffRetry (fun _ => none) =
      ([1000, 2000, 4000, 8000, 16000], StratOutcome.threw) ∧
    autoRecover (fun nm =>
      if nm = "exponential_backoff_retry" then (exponentialBackoffRetry (fun _ => none)).2
      else if nm = "checkpoint_rollback" then StratOutcome.success 9
      else StratOutcome.failure) =
      (some 9, ["exponential_backoff_retry", "checkpoint_rollback"]) := by
  refine ⟨?_, by decide, by decide⟩
  intro attempt
  have h := retryAux_delays attempt 5 0 (by omega)
  simpa [exponentialBackoffRetry] using h

lemma autoRecover_all_nosucc (reg : String → StratOutcome)
    (h1 : isSucc (reg "exponential_backoff_retry") = false)
    (h2 : isSucc (reg "checkpoint_rollback") = false)
    (h3 : isSucc (reg "alternate_path_routing") = false)
    (h4 : isSucc (reg "graceful_degradation") = false) :
    autoRecover reg = (none, strategyNames) := by
  rw [autoRecover, autoRecoverWith_cons_nosucc h1, autoRecoverWith_cons_nosucc h2,
    autoRecoverWith_cons_nosucc h3, autoRecoverWith_cons_nosucc h4]
  rfl

/-- **C7** (confirmed).  When every registered strategy fails or throws,
`autoRecover` walks the whole chain and returns `null` (a terminal failure
outcome, modelled as `none`), and `executeWithSelfHealing`'s catch handler
then rethrows the original error to its caller (`if (!recovered) throw
error`) — it neither succeeds silently nor hangs (the model is a total
function). -/
theorem autoRecover_exhaustion_terminal (reg : String → StratOutcome)
    (h : strategyNames.all (fun nm => !(isSucc (reg nm))) = true) :
    autoRecover reg = (none, strategyNames) ∧
    ∀ (e : String) (p : FailurePrediction),
      (executeWithSelfHealing (Except.ok p) (Except.error e) reg).result =
        Except.error e ∧
      (executeWithSelfHealing (Except.ok p) (Except.error e) reg).recoveryAttempted =
        strategyNames := by
  simp only [strategyNames, List.all_cons, List.all_nil, Bool.and_true, Bool.and_eq_true,
    Bool.not_eq_true'] at h
  obtain ⟨h1, h2, h3, h4⟩ := h
  have hrec := autoRecover_all_nosucc reg h1 h2 h3 h4
  refine ⟨hrec, ?_⟩
  intro e p
  simp [executeWithSelfHealing, hrec]

/-- Witness for C7: the registry in which every strategy returns a falsy
value exhausts the chain, and the original error `"boom"` is rethrown. -/
theorem autoRecover_exhaustion_terminal_witness :
    autoRecover (fun _ => StratOutcome.failure) = (none, strategyNames) ∧
    (executeWithSelfHealing (Except.ok ⟨0, "unknown", RecommendedAction.retry⟩)
        (Except.error "boom") (fun _ => StratOutcome.failure)).result =
      Except.error "boom" :=
  ⟨(autoRecover_exhaustion_terminal _ (by decide)).1,
   ((autoRecover_exhaustion_terminal _ (by decide)).2 "boom"
      ⟨0, "unknown", RecommendedAction.retry⟩).1⟩

/-- **C8** (corrected), counterexample.  The claim states that the returned
priority score is clamped to `[0, 1]`.  The source's
`calculateBayesianPriority` applies no clamping: at historical success rate
1, `task.priority = 200` and resource availability 1 it returns `7/5`,
which is not `≤ 1`. -/
theorem bayesianPriority_not_clamped_counterexample :
    calculateBayesianPriority 1 200 1 = 7/5 ∧
    ¬ (calculateBayesianPriority 1 200 1 ≤ 1) := by
  constructor
  · norm_num [calculateBayesianPriority]
  · norm_num [calculateBayesianPriority]

/-- **C8** (corrected), amended claim: the priority score equals the fixed
weighted combination `0.4 · historicalSuccess + 0.4 · (priority / 100) +
0.2 · resourceAvailability` with **no** clamping applied; when the inputs
lie in their intended ranges (success rate and resource availability in
`[0, 1]`, priority in `[0, 100]`) the result happens to lie in `[0, 1]`
anyway. -/
theorem bayesianPriority_formula_and_range (h p r : ℚ)
    (hh0 : 0 ≤ h) (hh1 : h ≤ 1) (hp0 : 0 ≤ p) (hp1 : p ≤ 100)
    (hr0 : 0 ≤ r) (hr1 : r ≤ 1) :
    calculateBayesianPriority h p r =
      (4/10) * h + (4/10) * (p / 100) + (2/10) * r ∧
    0 ≤ calculateBayesianPriority h p r ∧ calculateBayesianPriority h p r ≤ 1 := by
  refine ⟨by rw [calculateBayesianPriority]; ring, ?_, ?_⟩
  · rw [calculateBayesianPriority]
    have hp : 0 ≤ p / 100 := by positivity
    positivity
  · rw [calculateBayesianPriority]
    have hp : p / 100 ≤ 1 := by linarith
    nlinarith

/-- Witness for C8 (amended): at the extreme in-range inputs the score is
exactly 1, within the interval. -/
theorem bayesianPriority_formula_and_range_witness :
    calculateBayesianPriority 1 100 1 ≤ 1 :=
  (bayesianPriority_formula_and_range 1 100 1 (by norm_num) (by norm_num)
    (by norm_num) (by norm_num) (by norm_num) (by norm_num)).2.2

/-- **C9** (corrected), counterexample.  The claim states that when the
failure predictor is unavailable the core proceeds with execution as if the
predicted probability were 0.  In the source, a throw from
`predictFailures` lands in the *same* `catch` block as an execution
failure: with a predictor that throws `"predictor-down"`, an executor that
would succeed with `42`, and all recovery strategies failing,
`executeWithSelfHealing` runs the full recovery chain on the predictor
error and rethrows it — it does not return the successful execution
result. -/
theorem predictor_error_treated_as_failure_counterexample :
    (executeWithSelfHealing (Except.error "predictor-down") (Except.ok 42)
        (fun _ => StratOutcome.failure)).result = Except.error "predictor-down" ∧
    (executeWithSelfHealing (Except.error "predictor-down") (Except.ok 42)
        (fun _ => StratOutcome.failure)).recoveryAttempted = strategyNames ∧
    (executeWithSelfHealing (Except.error "predictor-down") (Except.ok 42)
        (fun _ => StratOutcome.failure)).result ≠ Except.ok 42 := by
  refine ⟨rfl, rfl, ?_⟩
  intro hcon
  exact Except.noConfusion hcon

/-- **C9** (corrected), amended claim: a throw from the failure predictor
during `executeWithSelfHealing` is caught by the same handler as an
execution failure — the call behaves exactly like an execution that failed
with the predictor's error (recovery strategies are invoked on it, the
normal execution result is discarded, and on recovery exhaustion the
predictor error itself is rethrown); the core does not degrade to a
zero-probability prediction. -/
theorem predictor_error_routed_to_recovery (pe : String)
    (execRes : Except String Nat) (reg : String → StratOutcome)
    (pr : FailurePrediction) (hpr : pr.probability ≤ 7/10) :
    executeWithSelfHealing (Except.error pe) execRes reg =
      executeWithSelfHealing (Except.ok pr) (Except.error pe) reg := by
  have hdec : decide (pr.probability > 7/10) = false :=
    decide_eq_false (not_lt.mpr hpr)
  rcases hrec : autoRecover reg with ⟨res, att⟩
  cases res with
  | none => simp [executeWithSelfHealing, hrec, hdec]
  | some v => simp [executeWithSelfHealing, hrec, hdec]

/-- Witness for C9 (amended): with the predictor down, a would-succeed
executor and an all-failing recovery chain, the call coincides with an
execution failure carrying the same error. -/
theorem predictor_error_routed_to_recovery_witness :
    executeWithSelfHealing (Except.error "down") (Except.ok 1)
        (fun _ => StratOutcome.failure) =
      executeWithSelfHealing (Except.ok ⟨0, "unknown", RecommendedAction.retry⟩)
        (Except.error "down") (fun _ => StratOutcome.failure) :=
  predictor_error_routed_to_recovery "down" (Except.ok 1) (fun _ => StratOutcome.failure)
    ⟨0, "unknown", RecommendedAction.retry⟩ (by norm_num)

end AiOpsStudio
